import Mathlib

/-!
Shallow embedding of the Question/Option/Difficulty core of the
educational-reinforcement-platform repository
(src/internal/domain/model/question.go, option.go, difficulty.go).

Go `time.Time` is embedded as `Nat`; every mutator that calls `time.Now()`
takes the current instant as an explicit `now` parameter (the spec treats
the clock as an injectable collaborator).  Go errors are embedded as the
inductive `Err` of sentinel error values; a Go method on `*Question` that
may mutate its receiver and return an error is embedded as a function
returning `MutResult`, which carries the final receiver state both on
success and on failure (the source sometimes mutates the receiver before
returning an error, so the failure state must be kept).
-/

namespace model

/-- Go `type Difficulty int` (difficulty.go). -/
abbrev Difficulty : Type := Int

/-- `VeryEasy Difficulty = iota + 2`. -/
def VeryEasy : Difficulty := 2

/-- `Easy` = 3. -/
def Easy : Difficulty := 3

/-- `Medium` = 4. -/
def Medium : Difficulty := 4

/-- `Hard` = 5. -/
def Hard : Difficulty := 5

/-- `VeryHard` = 6. -/
def VeryHard : Difficulty := 6

/-- The sentinel error values (`errors.New` package-level variables) that the
claims refer to, from difficulty.go, option.go and question.go. -/
inductive Err where
  | InvalidDifficulty
  | QuantityOptions
  | InvalidCorrectOptions
  | AddOptionExceedsLimit
  | RemoveOptionBelowLimit
  | OptionNotFound
  | ChangeDifficulty
  | EmptyQuestionContent
deriving DecidableEq

/-- `ValidateDifficulty` (difficulty.go):
fails with `ErrInvalidDifficulty` when the level is outside
`[VeryEasy, VeryHard]`, otherwise returns the level itself. -/
def ValidateDifficulty (difficulty : Difficulty) : Except Err Difficulty :=
  if difficulty < VeryEasy ∨ difficulty > VeryHard then
    Except.error Err.InvalidDifficulty
  else
    Except.ok difficulty

/-- `Difficulty.ToInt` (difficulty.go): `int(d)`. -/
def ToInt (d : Difficulty) : Int := d

/-- `FromInt` (difficulty.go): `ValidateDifficulty(Difficulty(value))`. -/
def FromInt (value : Int) : Except Err Difficulty :=
  ValidateDifficulty value

/-- `Difficulty.String` (difficulty.go): the five canonical labels,
with `Unknown` as the switch default. -/
def difficultyLabel (d : Difficulty) : String :=
  if d = VeryEasy then "Very Easy"
  else if d = Easy then "Easy"
  else if d = Medium then "Medium"
  else if d = Hard then "Hard"
  else if d = VeryHard then "Very Hard"
  else "Unknown"

/-- The label-decoding switch of `Difficulty.UnmarshalJSON` (difficulty.go):
maps each canonical label back to its level and fails with
`ErrInvalidDifficulty` on any other string (the switch default). -/
def unmarshalDifficultyLabel (s : String) : Except Err Difficulty :=
  if s = "Very Easy" then Except.ok VeryEasy
  else if s = "Easy" then Except.ok Easy
  else if s = "Medium" then Except.ok Medium
  else if s = "Hard" then Except.ok Hard
  else if s = "Very Hard" then Except.ok VeryHard
  else Except.error Err.InvalidDifficulty

/-- Go struct `Option` (option.go). `CreatedAt`/`UpdatedAt` are instants. -/
structure Option where
  ID : String
  QuestionID : String
  Content : String
  IsCorrect : Bool
  CreatedAt : Nat
  UpdatedAt : Nat
deriving DecidableEq

/-- Go struct `Question` (question.go). -/
structure Question where
  ID : String
  SubjectID : String
  Content : String
  Difficulty : Difficulty
  Options : List Option
  CreatedAt : Nat
  UpdatedAt : Nat
deriving DecidableEq

/-- The `correctCount` loop of `validateOptions` (question.go):
counts the options with `IsCorrect` set. -/
def correctCount (options : List Option) : Nat :=
  options.foldl (fun acc opt => if opt.IsCorrect then acc + 1 else acc) 0

/-- `validateOptions` (question.go): the option-set invariant check.
Fails with `ErrQuantityOptions` when
`len(options) < int(VeryEasy) || len(options) > int(difficulty)`,
then with `ErrInvalidCorrectOptions` when the correct count is not one. -/
def validateOptions (options : List Option) (difficulty : Difficulty) :
    Except Err Unit :=
  if (options.length : Int) < VeryEasy ∨ (options.length : Int) > difficulty then
    Except.error Err.QuantityOptions
  else if correctCount options ≠ 1 then
    Except.error Err.InvalidCorrectOptions
  else
    Except.ok ()

/-- Result of a Go mutator method on `*Question`: the error returned (if any)
together with the final state of the receiver. -/
inductive MutResult where
  | ok (q : Question)
  | err (e : Err) (q : Question)
deriving DecidableEq

/-- Whether a mutator call returned `nil` error. -/
def MutResult.isOk : MutResult → Bool
  | MutResult.ok _ => true
  | MutResult.err _ _ => false

/-- The final state of the receiver after a mutator call. -/
def MutResult.state : MutResult → Question
  | MutResult.ok q => q
  | MutResult.err _ q => q

/-- `validateQuestionContent` (question.go): content must be non-blank. -/
def validateQuestionContent (content : String) : Except Err Unit :=
  if content.trim = "" then Except.error Err.EmptyQuestionContent
  else Except.ok ()

/-- `Question.UpdateContent` (question.go). -/
def UpdateContent (q : Question) (newContent : String) (now : Nat) : MutResult :=
  match validateQuestionContent newContent with
  | Except.error e => MutResult.err e q
  | Except.ok _ =>
      MutResult.ok { q with Content := newContent, UpdatedAt := now }

/-- `Question.UpdateDifficulty` (question.go): validates the new level,
rejects with `ErrChangeDifficulty` when `len(q.Options) > int(newDifficulty)`,
otherwise commits the level and stamps `UpdatedAt`. -/
def UpdateDifficulty (q : Question) (newDifficulty : Difficulty) (now : Nat) :
    MutResult :=
  match ValidateDifficulty newDifficulty with
  | Except.error e => MutResult.err e q
  | Except.ok validDifficulty =>
      if (q.Options.length : Int) > validDifficulty then
        MutResult.err Err.ChangeDifficulty q
      else
        MutResult.ok { q with Difficulty := validDifficulty, UpdatedAt := now }

/-- `Question.UpdateOptions` (question.go). -/
def UpdateOptions (q : Question) (newOptions : List Option) (now : Nat) :
    MutResult :=
  match validateOptions newOptions q.Difficulty with
  | Except.error e => MutResult.err e q
  | Except.ok _ =>
      MutResult.ok { q with Options := newOptions, UpdatedAt := now }

/-- `Question.AddOption` (question.go): ceiling pre-check
`len(q.Options) >= int(q.Difficulty)`, then append, then the full
invariant check, then commit. -/
def AddOption (q : Question) (option : Option) (now : Nat) : MutResult :=
  if (q.Options.length : Int) ≥ q.Difficulty then
    MutResult.err Err.AddOptionExceedsLimit q
  else
    let newOptions := q.Options ++ [option]
    match validateOptions newOptions q.Difficulty with
    | Except.error e => MutResult.err e q
    | Except.ok _ =>
        MutResult.ok { q with Options := newOptions, UpdatedAt := now }

/-- The rebuild loop of `Question.RemoveOption` (question.go): walks the
options in order, skips every option whose ID matches (setting `found`),
and appends the rest to `newOptions` in order. -/
def removeScan (options : List Option) (optionID : String) :
    List Option × Bool :=
  options.foldl
    (fun acc opt =>
      if opt.ID = optionID then (acc.1, true)
      else (acc.1 ++ [opt], acc.2))
    ([], false)

/-- `Question.RemoveOption` (question.go): floor pre-check
`len(q.Options) <= int(VeryEasy)`, then the rebuild loop, then
`ErrOptionNotFound` when nothing matched, then the invariant check on the
remaining set, then commit. -/
def RemoveOption (q : Question) (optionID : String) (now : Nat) : MutResult :=
  if (q.Options.length : Int) ≤ VeryEasy then
    MutResult.err Err.RemoveOptionBelowLimit q
  else
    let scan := removeScan q.Options optionID
    if scan.2 = false then
      MutResult.err Err.OptionNotFound q
    else
      match validateOptions scan.1 q.Difficulty with
      | Except.error e => MutResult.err e q
      | Except.ok _ =>
          MutResult.ok { q with Options := scan.1, UpdatedAt := now }

/-- The flipping loop of `Question.SetCorrectOption` (question.go): every
option is rewritten in place — the matching ones get `IsCorrect = true`,
all others `IsCorrect = false`, and every option gets `UpdatedAt = now`;
`found` records whether any option matched. -/
def flipOptions (options : List Option) (optionID : String) (now : Nat) :
    List Option × Bool :=
  options.foldl
    (fun acc opt =>
      if opt.ID = optionID then
        (acc.1 ++ [{ opt with IsCorrect := true, UpdatedAt := now }], true)
      else
        (acc.1 ++ [{ opt with IsCorrect := false, UpdatedAt := now }], acc.2))
    ([], false)

/-- `Question.SetCorrectOption` (question.go): runs the flipping loop over
`q.Options` unconditionally (the receiver's options are mutated in place
before `found` is checked), then returns `ErrOptionNotFound` when nothing
matched, then re-validates, and only on full success stamps `q.UpdatedAt`. -/
def SetCorrectOption (q : Question) (optionID : String) (now : Nat) :
    MutResult :=
  let scan := flipOptions q.Options optionID now
  let q1 := { q with Options := scan.1 }
  if scan.2 = false then
    MutResult.err Err.OptionNotFound q1
  else
    match validateOptions scan.1 q.Difficulty with
    | Except.error e => MutResult.err e q1
    | Except.ok _ =>
        MutResult.ok { q1 with UpdatedAt := now }

/-- The options invariant of a valid Question (spec §3, `validateOptions`):
between 2 (`VeryEasy`) and `int(difficulty)` options, exactly one correct. -/
def optionsInvariant (q : Question) : Prop :=
  VeryEasy ≤ (q.Options.length : Int) ∧
  (q.Options.length : Int) ≤ q.Difficulty ∧
  correctCount q.Options = 1

instance (q : Question) : Decidable (optionsInvariant q) := by
  unfold optionsInvariant
  infer_instance

/-- The per-option rewrite performed by the flipping loop of
`SetCorrectOption`: the matching option gets `IsCorrect = true`, any other
gets `IsCorrect = false`, and both get `UpdatedAt = now`. -/
def flipOne (optionID : String) (now : Nat) (opt : Option) : Option :=
  if opt.ID = optionID then { opt with IsCorrect := true, UpdatedAt := now }
  else { opt with IsCorrect := false, UpdatedAt := now }

/-- Sample correct option. -/
def optA : Option :=
  { ID := "a", QuestionID := "q1", Content := "alpha", IsCorrect := true,
    CreatedAt := 0, UpdatedAt := 0 }

/-- Sample incorrect option. -/
def optB : Option :=
  { ID := "b", QuestionID := "q1", Content := "beta", IsCorrect := false,
    CreatedAt := 0, UpdatedAt := 0 }

/-- Sample incorrect option. -/
def optC : Option :=
  { ID := "c", QuestionID := "q1", Content := "gamma", IsCorrect := false,
    CreatedAt := 0, UpdatedAt := 0 }

/-- Sample incorrect option. -/
def optD : Option :=
  { ID := "d", QuestionID := "q1", Content := "delta", IsCorrect := false,
    CreatedAt := 0, UpdatedAt := 0 }

/-- A second correct option, used to exercise the single-correctness check. -/
def optE : Option :=
  { ID := "e", QuestionID := "q1", Content := "epsilon", IsCorrect := true,
    CreatedAt := 0, UpdatedAt := 0 }

/-- An incorrect option sharing the ID `"a"` with `optA`, used to exercise
duplicate-ID behavior (the source does not reject duplicate IDs). -/
def optADup : Option :=
  { ID := "a", QuestionID := "q1", Content := "alpha bis", IsCorrect := false,
    CreatedAt := 0, UpdatedAt := 0 }

/-- Valid Medium question with three options, `"a"` correct. -/
def qEx : Question :=
  { ID := "q1", SubjectID := "s1", Content := "pick one", Difficulty := Medium,
    Options := [optA, optB, optC], CreatedAt := 0, UpdatedAt := 0 }

/-- Valid Medium question with two options, `"a"` correct. -/
def qTwo : Question :=
  { ID := "q1", SubjectID := "s1", Content := "pick one", Difficulty := Medium,
    Options := [optA, optB], CreatedAt := 0, UpdatedAt := 0 }

/-- Valid Medium question at its four-option ceiling. -/
def qFull : Question :=
  { ID := "q1", SubjectID := "s1", Content := "pick one", Difficulty := Medium,
    Options := [optA, optB, optC, optD], CreatedAt := 0, UpdatedAt := 0 }

/-- Malformed Medium question with a single option (below the floor). -/
def qOne : Question :=
  { ID := "q1", SubjectID := "s1", Content := "pick one", Difficulty := Medium,
    Options := [optA], CreatedAt := 0, UpdatedAt := 0 }

/-- Medium question whose two options share the ID `"a"`, one correct. -/
def qDup : Question :=
  { ID := "q1", SubjectID := "s1", Content := "pick one", Difficulty := Medium,
    Options := [optA, optADup], CreatedAt := 0, UpdatedAt := 0 }

theorem correctCount_go (options : List Option) (n : Nat) :
    options.foldl (fun acc opt => if opt.IsCorrect then acc + 1 else acc) n
      = n + options.countP (fun o => o.IsCorrect) := by
  induction options generalizing n with
  | nil => simp
  | cons o os ih =>
      by_cases h : o.IsCorrect = true
      · simp [List.countP_cons, h, ih]
        omega
      · simp [List.countP_cons, h, ih]

/-- The `correctCount` loop counts the options satisfying `IsCorrect`. -/
theorem correctCount_eq_countP (options : List Option) :
    correctCount options = options.countP (fun o => o.IsCorrect) := by
  unfold correctCount
  simpa using correctCount_go options 0

theorem removeScan_go (optionID : String) (options : List Option)
    (acc : List Option) (b : Bool) :
    options.foldl
      (fun a opt =>
        if opt.ID = optionID then (a.1, true)
        else (a.1 ++ [opt], a.2))
      (acc, b)
      = (acc ++ options.filter (fun o => decide (o.ID ≠ optionID)),
         b || options.any (fun o => decide (o.ID = optionID))) := by
  induction options generalizing acc b with
  | nil => simp
  | cons o os ih =>
      by_cases h : o.ID = optionID
      · simp [h, ih]
      · simp [h, ih]

/-- The rebuild loop of `RemoveOption` returns the original options with
every match removed (in the original relative order) together with a flag
telling whether any option matched. -/
theorem removeScan_eq (options : List Option) (optionID : String) :
    removeScan options optionID
      = (options.filter (fun o => decide (o.ID ≠ optionID)),
         options.any (fun o => decide (o.ID = optionID))) := by
  unfold removeScan
  simpa using removeScan_go optionID options [] false

theorem flipOptions_go (optionID : String) (now : Nat)
    (options : List Option) (acc : List Option) (b : Bool) :
    options.foldl
      (fun a opt =>
        if opt.ID = optionID then
          (a.1 ++ [{ opt with IsCorrect := true, UpdatedAt := now }], true)
        else
          (a.1 ++ [{ opt with IsCorrect := false, UpdatedAt := now }], a.2))
      (acc, b)
      = (acc ++ options.map (flipOne optionID now),
         b || options.any (fun o => decide (o.ID = optionID))) := by
  induction options generalizing acc b with
  | nil => simp
  | cons o os ih =>
      by_cases h : o.ID = optionID
      · simp [h, ih, flipOne]
      · simp [h, ih, flipOne]

/-- The flipping loop of `SetCorrectOption` rewrites every option with
`flipOne` and reports whether any option matched. -/
theorem flipOptions_eq (options : List Option) (optionID : String) (now : Nat) :
    flipOptions options optionID now
      = (options.map (flipOne optionID now),
         options.any (fun o => decide (o.ID = optionID))) := by
  unfold flipOptions
  simpa using flipOptions_go optionID now options [] false

/-- `validateOptions` succeeds exactly when the option count lies in
`[VeryEasy, difficulty]` and exactly one option is correct. -/
theorem validateOptions_ok_iff (options : List Option) (difficulty : Difficulty) :
    validateOptions options difficulty = Except.ok () ↔
      (VeryEasy ≤ (options.length : Int) ∧
       (options.length : Int) ≤ difficulty ∧
       correctCount options = 1) := by
  unfold validateOptions
  split_ifs with h1 h2
  · constructor
    · intro h
      exact absurd h (by simp)
    · intro h
      rcases h1 with h1 | h1
      · exact absurd h.1 (not_le.mpr h1)
      · exact absurd h.2.1 (not_le.mpr h1)
  · constructor
    · intro h
      exact absurd h (by simp)
    · intro h
      exact absurd h.2.2 h2
  · push_neg at h1 h2
    constructor
    · intro _
      exact ⟨h1.1, h1.2, h2⟩
    · intro _
      rfl

/-- A successfully validated replacement option set yields the invariant on
the committed state. -/
theorem optionsInvariant_of_validate (q : Question) (os : List Option)
    (now : Nat) (hval : validateOptions os q.Difficulty = Except.ok ()) :
    optionsInvariant { q with Options := os, UpdatedAt := now } := by
  obtain ⟨a, b, c⟩ := (validateOptions_ok_iff os q.Difficulty).1 hval
  exact ⟨a, b, c⟩

/-- C1: the claim states that `SetCorrectOption` with an `optionId` matching
no option fails with `ErrOptionNotFound` and leaves the Question entirely
unchanged (no option's `IsCorrect` or `UpdatedAt` touched). The code does
return `ErrOptionNotFound`, but its flipping loop has already rewritten
every option in place before `found` is checked: at the failing input below
(a valid two-option question, missing id `"zzz"`) both options end with
`IsCorrect = false` and `UpdatedAt = 9`, so the receiver is changed and even
loses its exactly-one-correct invariant; only `q.UpdatedAt` stays untouched.
This contradicts the error contract the repository applies in every other
mutator (validate, then commit), so it is a code bug. -/
theorem C1_missing_id_clobbers_options :
    (qTwo.Options.all (fun o => decide (o.ID ≠ "zzz"))) = true ∧
    SetCorrectOption qTwo "zzz" 9
      = MutResult.err Err.OptionNotFound
          { qTwo with Options :=
              [{ optA with IsCorrect := false, UpdatedAt := 9 },
               { optB with IsCorrect := false, UpdatedAt := 9 }] } ∧
    (SetCorrectOption qTwo "zzz" 9).state.Options ≠ qTwo.Options ∧
    (SetCorrectOption qTwo "zzz" 9).state.UpdatedAt = qTwo.UpdatedAt := by
  decide

/-- C2: starting from a Question satisfying the options invariant
(`2 ≤ count ≤ int(difficulty)`, exactly one correct option), every
successful call to any of the six public mutators yields a state that
satisfies the invariant again. -/
theorem C2_mutators_preserve_invariant (q : Question) (h : optionsInvariant q) :
    (∀ s now q', UpdateContent q s now = MutResult.ok q' →
       optionsInvariant q') ∧
    (∀ d now q', UpdateDifficulty q d now = MutResult.ok q' →
       optionsInvariant q') ∧
    (∀ os now q', UpdateOptions q os now = MutResult.ok q' →
       optionsInvariant q') ∧
    (∀ o now q', AddOption q o now = MutResult.ok q' →
       optionsInvariant q') ∧
    (∀ i now q', RemoveOption q i now = MutResult.ok q' →
       optionsInvariant q') ∧
    (∀ i now q', SetCorrectOption q i now = MutResult.ok q' →
       optionsInvariant q') := by
  refine ⟨?_, ?_, ?_, ?_, ?_, ?_⟩
  · intro s now q' hq
    unfold UpdateContent at hq
    cases hvc : validateQuestionContent s with
    | error e =>
        rw [hvc] at hq
        exact MutResult.noConfusion hq
    | ok u =>
        rw [hvc] at hq
        injection hq with hh
        subst hh
        exact ⟨h.1, h.2.1, h.2.2⟩
  · intro d now q' hq
    unfold UpdateDifficulty at hq
    cases hv : ValidateDifficulty d with
    | error e =>
        rw [hv] at hq
        exact MutResult.noConfusion hq
    | ok vd =>
        rw [hv] at hq
        dsimp only at hq
        by_cases hlen : (q.Options.length : Int) > vd
        · rw [if_pos hlen] at hq
          exact MutResult.noConfusion hq
        · rw [if_neg hlen] at hq
          injection hq with hh
          subst hh
          push_neg at hlen
          exact ⟨h.1, hlen, h.2.2⟩
  · intro os now q' hq
    unfold UpdateOptions at hq
    cases hv : validateOptions os q.Difficulty with
    | error e =>
        rw [hv] at hq
        exact MutResult.noConfusion hq
    | ok u =>
        rw [hv] at hq
        injection hq with hh
        subst hh
        exact optionsInvariant_of_validate q os now (by cases u; exact hv)
  · intro o now q' hq
    unfold AddOption at hq
    by_cases hc : (q.Options.length : Int) ≥ q.Difficulty
    · rw [if_pos hc] at hq
      exact MutResult.noConfusion hq
    · rw [if_neg hc] at hq
      dsimp only at hq
      cases hv : validateOptions (q.Options ++ [o]) q.Difficulty with
      | error e =>
          rw [hv] at hq
          exact MutResult.noConfusion hq
      | ok u =>
          rw [hv] at hq
          injection hq with hh
          subst hh
          exact optionsInvariant_of_validate q _ now (by cases u; exact hv)
  · intro i now q' hq
    unfold RemoveOption at hq
    by_cases hle : (q.Options.length : Int) ≤ VeryEasy
    · rw [if_pos hle] at hq
      exact MutResult.noConfusion hq
    · rw [if_neg hle] at hq
      dsimp only at hq
      by_cases hf : (removeScan q.Options i).2 = false
      · rw [if_pos hf] at hq
        exact MutResult.noConfusion hq
      · rw [if_neg hf] at hq
        cases hv : validateOptions (removeScan q.Options i).1 q.Difficulty with
        | error e =>
            rw [hv] at hq
            exact MutResult.noConfusion hq
        | ok u =>
            rw [hv] at hq
            injection hq with hh
            subst hh
            exact optionsInvariant_of_validate q _ now (by cases u; exact hv)
  · intro i now q' hq
    unfold SetCorrectOption at hq
    dsimp only at hq
    by_cases hf : (flipOptions q.Options i now).2 = false
    · rw [if_pos hf] at hq
      exact MutResult.noConfusion hq
    · rw [if_neg hf] at hq
      cases hv : validateOptions (flipOptions q.Options i now).1 q.Difficulty with
      | error e =>
          rw [hv] at hq
          exact MutResult.noConfusion hq
      | ok u =>
          rw [hv] at hq
          injection hq with hh
          subst hh
          exact optionsInvariant_of_validate q _ now (by cases u; exact hv)

/-- C2 witness: the invariant hypothesis is discharged on the concrete
valid question `qEx`, whose correct option is then moved to `"b"`. -/
theorem C2_mutators_preserve_invariant_witness :
    optionsInvariant ((SetCorrectOption qEx "b" 5).state) :=
  (C2_mutators_preserve_invariant qEx (by decide)).2.2.2.2.2 "b" 5
    ((SetCorrectOption qEx "b" 5).state) (by decide)

/-- C3 counterexample: the claim quantifies over every Question, but on the
one-option question `qOne` the id `"a"` does match an option and the call
still fails (the post-flip `validateOptions` rejects the below-floor
count); likewise on `qDup`, whose two options both carry the id `"a"`, the
call fails with `ErrInvalidCorrectOptions` after flipping both to correct.
So "SetCorrectOption(optionId) succeeds" is false as stated, forcing both
amendments: the option count must lie in `[2, int(difficulty)]` and the id
must match exactly one option. -/
theorem C3_counterexample_one_option :
    ((qOne.Options.any (fun o => decide (o.ID = "a"))) = true ∧
     (SetCorrectOption qOne "a" 7).isOk = false) ∧
    ((qDup.Options.any (fun o => decide (o.ID = "a"))) = true ∧
     (SetCorrectOption qDup "a" 8).isOk = false) := by
  decide

/-- C3 (amended): on a Question whose option count lies in
`[2, int(difficulty)]` and where the given id matches exactly one option,
`SetCorrectOption` succeeds; afterwards every option is rewritten by
`flipOne`, i.e. exactly the matching option has `IsCorrect = true`, every
other option has `IsCorrect = false`, every option keeps its ID and gets
`UpdatedAt = now`, and the Question itself gets `UpdatedAt = now`. -/
theorem C3_set_correct_existing (q : Question) (optionID : String) (now : Nat)
    (hlo : VeryEasy ≤ (q.Options.length : Int))
    (hhi : (q.Options.length : Int) ≤ q.Difficulty)
    (huniq : q.Options.countP (fun o => decide (o.ID = optionID)) = 1) :
    SetCorrectOption q optionID now
      = MutResult.ok { q with Options := q.Options.map (flipOne optionID now),
                              UpdatedAt := now } ∧
    ∀ o : Option,
      (flipOne optionID now o).IsCorrect = decide (o.ID = optionID) ∧
      (flipOne optionID now o).UpdatedAt = now ∧
      (flipOne optionID now o).ID = o.ID := by
  have hany : q.Options.any (fun o => decide (o.ID = optionID)) = true := by
    rw [List.any_eq_true]
    have hpos : 0 < q.Options.countP (fun o => decide (o.ID = optionID)) := by
      omega
    obtain ⟨a, ha, hpa⟩ := List.countP_pos_iff.mp hpos
    exact ⟨a, ha, hpa⟩
  have hcc : correctCount (q.Options.map (flipOne optionID now)) = 1 := by
    rw [correctCount_eq_countP, List.countP_map]
    have hco :
        q.Options.countP ((fun o => o.IsCorrect) ∘ flipOne optionID now)
          = q.Options.countP (fun o => decide (o.ID = optionID)) := by
      apply List.countP_congr
      intro a _
      by_cases hmatch : a.ID = optionID
      · simp [flipOne, hmatch]
      · simp [flipOne, hmatch]
    rw [hco, huniq]
  have hval :
      validateOptions (q.Options.map (flipOne optionID now)) q.Difficulty
        = Except.ok () := by
    rw [validateOptions_ok_iff]
    refine ⟨?_, ?_, hcc⟩
    · simpa using hlo
    · simpa using hhi
  constructor
  · simp only [SetCorrectOption, flipOptions_eq, hany, hval]
    simp
  · intro o
    by_cases hmatch : o.ID = optionID
    · simp [flipOne, hmatch]
    · simp [flipOne, hmatch]

/-- C3 witness: all hypotheses discharged on the concrete valid question
`qEx`, choosing the existing id `"b"`. -/
theorem C3_set_correct_existing_witness :
    SetCorrectOption qEx "b" 5
      = MutResult.ok { qEx with Options := qEx.Options.map (flipOne "b" 5),
                                UpdatedAt := 5 } :=
  (C3_set_correct_existing qEx "b" 5 (by decide) (by decide) (by decide)).1

/-- C4: on a Question already holding exactly `int(difficulty)` options,
`AddOption` fails with `ErrAddOptionExceedsLimit` for every option argument
(the ceiling pre-check fires before any append or invariant check), and the
final receiver state — hence its option list, length and contents — is the
original one. -/
theorem C4_add_option_at_ceiling (q : Question) (option : Option) (now : Nat)
    (h : (q.Options.length : Int) = q.Difficulty) :
    AddOption q option now = MutResult.err Err.AddOptionExceedsLimit q ∧
    (AddOption q option now).state.Options = q.Options := by
  have hge : (q.Options.length : Int) ≥ q.Difficulty := le_of_eq h.symm
  have hres : AddOption q option now
      = MutResult.err Err.AddOptionExceedsLimit q := by
    unfold AddOption
    rw [if_pos hge]
  refine ⟨hres, ?_⟩
  rw [hres]
  rfl


/-- C4 witness: the hypothesis is discharged on the concrete question
`qFull`, which sits at its Medium ceiling of four options. -/
theorem C4_add_option_at_ceiling_witness :
    AddOption qFull optE 3 = MutResult.err Err.AddOptionExceedsLimit qFull :=
  (C4_add_option_at_ceiling qFull optE 3 (by decide)).1

/-- C5: `RemoveOption` fails with `ErrRemoveOptionBelowLimit` whenever the
Question has exactly two options (before any search); fails with
`ErrOptionNotFound` when there are more than two options and no option's ID
equals the argument; and on every failure path the final receiver state
keeps the original `Options`, `Difficulty` and `UpdatedAt`. -/
theorem C5_remove_option_failures (q : Question) (optionID : String)
    (now : Nat) :
    (q.Options.length = 2 →
       RemoveOption q optionID now
         = MutResult.err Err.RemoveOptionBelowLimit q) ∧
    (2 < q.Options.length → (∀ o ∈ q.Options, o.ID ≠ optionID) →
       RemoveOption q optionID now = MutResult.err Err.OptionNotFound q) ∧
    (∀ e qf, RemoveOption q optionID now = MutResult.err e qf →
       qf.Options = q.Options ∧ qf.Difficulty = q.Difficulty ∧
       qf.UpdatedAt = q.UpdatedAt) := by
  refine ⟨?_, ?_, ?_⟩
  · intro h2
    have hle : (q.Options.length : Int) ≤ VeryEasy := by
      rw [h2]
      norm_num [VeryEasy]
    unfold RemoveOption
    rw [if_pos hle]
  · intro hgt hnone
    have hle : ¬ (q.Options.length : Int) ≤ VeryEasy := by
      have hgt' : (2 : Int) < (q.Options.length : Int) := by exact_mod_cast hgt
      unfold VeryEasy
      omega
    unfold RemoveOption
    rw [if_neg hle]
    dsimp only
    have hfound : (removeScan q.Options optionID).2 = false := by
      rw [removeScan_eq]
      dsimp only
      rw [List.any_eq_false]
      intro o ho
      simpa using hnone o ho
    rw [if_pos hfound]
  · intro e qf hq
    unfold RemoveOption at hq
    by_cases hle : (q.Options.length : Int) ≤ VeryEasy
    · rw [if_pos hle] at hq
      injection hq with h1 h2
      subst h2
      exact ⟨rfl, rfl, rfl⟩
    · rw [if_neg hle] at hq
      dsimp only at hq
      by_cases hf : (removeScan q.Options optionID).2 = false
      · rw [if_pos hf] at hq
        injection hq with h1 h2
        subst h2
        exact ⟨rfl, rfl, rfl⟩
      · rw [if_neg hf] at hq
        cases hv : validateOptions (removeScan q.Options optionID).1 q.Difficulty with
        | error e2 =>
            rw [hv] at hq
            injection hq with h1 h2
            subst h2
            exact ⟨rfl, rfl, rfl⟩
        | ok u =>
            rw [hv] at hq
            exact MutResult.noConfusion hq

/-- C5 witness: the floor case discharged on the concrete two-option
question `qTwo`. -/
theorem C5_remove_option_failures_witness :
    RemoveOption qTwo "a" 3 = MutResult.err Err.RemoveOptionBelowLimit qTwo :=
  (C5_remove_option_failures qTwo "a" 3).1 (by decide)

/-- C6: `UpdateDifficulty` fails with `ErrInvalidDifficulty` when the new
level lies outside `[VeryEasy, VeryHard]`; fails with `ErrChangeDifficulty`
(the downgrade conflict), keeping the original state, when the level is in
range but smaller than the current option count; and succeeds, committing
the new level and stamping `UpdatedAt`, whenever the level's maximum is at
or above the current option count. -/
theorem C6_update_difficulty (q : Question) (nd : Difficulty) (now : Nat) :
    ((nd < VeryEasy ∨ VeryHard < nd) →
       UpdateDifficulty q nd now = MutResult.err Err.InvalidDifficulty q) ∧
    (VeryEasy ≤ nd → nd ≤ VeryHard → nd < (q.Options.length : Int) →
       UpdateDifficulty q nd now = MutResult.err Err.ChangeDifficulty q) ∧
    (VeryEasy ≤ nd → nd ≤ VeryHard → (q.Options.length : Int) ≤ nd →
       UpdateDifficulty q nd now
         = MutResult.ok { q with Difficulty := nd, UpdatedAt := now }) := by
  refine ⟨?_, ?_, ?_⟩
  · intro hout
    unfold UpdateDifficulty ValidateDifficulty
    rw [if_pos hout]
  · intro h1 h2 hlt
    unfold UpdateDifficulty ValidateDifficulty
    rw [if_neg (not_or.mpr ⟨not_lt.mpr h1, not_lt.mpr h2⟩)]
    dsimp only
    rw [if_pos hlt]
  · intro h1 h2 hle
    unfold UpdateDifficulty ValidateDifficulty
    rw [if_neg (not_or.mpr ⟨not_lt.mpr h1, not_lt.mpr h2⟩)]
    dsimp only
    rw [if_neg (not_lt.mpr hle)]

/-- C6 witness: the three branches discharged on the three-option question
`qEx` — an out-of-range level, a downgrade below the current count, and a
committing downgrade to `Easy` (maximum 3, equal to the count). -/
theorem C6_update_difficulty_witness :
    UpdateDifficulty qEx 7 4 = MutResult.err Err.InvalidDifficulty qEx ∧
    UpdateDifficulty qEx VeryEasy 4 = MutResult.err Err.ChangeDifficulty qEx ∧
    UpdateDifficulty qEx Easy 4
      = MutResult.ok { qEx with Difficulty := Easy, UpdatedAt := 4 } :=
  ⟨(C6_update_difficulty qEx 7 4).1 (by decide),
   (C6_update_difficulty qEx VeryEasy 4).2.1 (by decide) (by decide) (by decide),
   (C6_update_difficulty qEx Easy 4).2.2 (by decide) (by decide) (by decide)⟩

/-- C7: for each of the five Difficulty levels, decoding the encoded label
(`Difficulty.String` then the `UnmarshalJSON` label switch) yields the level
again, and decoding any string that is not one of the five canonical labels
fails with `ErrInvalidDifficulty` rather than coercing to a default. -/
theorem C7_difficulty_label_roundtrip :
    (∀ d : Difficulty, VeryEasy ≤ d → d ≤ VeryHard →
       unmarshalDifficultyLabel (difficultyLabel d) = Except.ok d) ∧
    (∀ s : String, s ≠ "Very Easy" → s ≠ "Easy" → s ≠ "Medium" →
       s ≠ "Hard" → s ≠ "Very Hard" →
       unmarshalDifficultyLabel s = Except.error Err.InvalidDifficulty) := by
  constructor
  · intro d h1 h2
    have h1' : (2 : Int) ≤ d := h1
    have h2' : d ≤ (6 : Int) := h2
    interval_cases d <;> rfl
  · intro s n1 n2 n3 n4 n5
    unfold unmarshalDifficultyLabel
    rw [if_neg n1, if_neg n2, if_neg n3, if_neg n4, if_neg n5]

/-- C7 witness: the round trip discharged at `Hard` and the rejection
discharged at the unrecognized label `"hardcore"`. -/
theorem C7_difficulty_label_roundtrip_witness :
    unmarshalDifficultyLabel (difficultyLabel Hard) = Except.ok Hard ∧
    unmarshalDifficultyLabel "hardcore" = Except.error Err.InvalidDifficulty :=
  ⟨C7_difficulty_label_roundtrip.1 Hard (by decide) (by decide),
   C7_difficulty_label_roundtrip.2 "hardcore" (by decide) (by decide)
     (by decide) (by decide) (by decide)⟩

/-- C8: the five levels carry the exact maximum permitted option counts
2..6 (`ToInt`); for every in-range level `ValidateDifficulty` succeeds
returning the level, and the option-quantity check of `validateOptions`
passes exactly for counts in `[2, ToInt d]`; for every integer outside
`[2,6]`, `ValidateDifficulty` and `FromInt` fail with
`ErrInvalidDifficulty`. -/
theorem C8_difficulty_ordinals :
    (ToInt VeryEasy = 2 ∧ ToInt Easy = 3 ∧ ToInt Medium = 4 ∧
     ToInt Hard = 5 ∧ ToInt VeryHard = 6) ∧
    (∀ d : Difficulty, VeryEasy ≤ d → d ≤ VeryHard →
       ValidateDifficulty d = Except.ok d ∧
       ∀ options : List Option, correctCount options = 1 →
         (validateOptions options d = Except.ok () ↔
            2 ≤ options.length ∧ (options.length : Int) ≤ ToInt d)) ∧
    (∀ v : Int, v < 2 ∨ 6 < v →
       ValidateDifficulty v = Except.error Err.InvalidDifficulty ∧
       FromInt v = Except.error Err.InvalidDifficulty) := by
  refine ⟨by decide, ?_, ?_⟩
  · intro d h1 h2
    constructor
    · unfold ValidateDifficulty
      rw [if_neg (not_or.mpr ⟨not_lt.mpr h1, not_lt.mpr h2⟩)]
    · intro options hcc
      rw [validateOptions_ok_iff]
      simp only [VeryEasy, ToInt, hcc, and_true]
      constructor
      · intro hx
        exact ⟨by exact_mod_cast hx.1, hx.2⟩
      · intro hx
        exact ⟨by exact_mod_cast hx.1, hx.2⟩
  · intro v hv
    have hv' : v < VeryEasy ∨ v > VeryHard := hv
    have hval : ValidateDifficulty v = Except.error Err.InvalidDifficulty := by
      unfold ValidateDifficulty
      rw [if_pos hv']
    exact ⟨hval, hval⟩

/-- C8 witness: discharged at the level `Medium`, a concrete valid option
list of length 3, and the out-of-range integer 7. -/
theorem C8_difficulty_ordinals_witness :
    ValidateDifficulty Medium = Except.ok Medium ∧
    (validateOptions qEx.Options Medium = Except.ok () ↔
       2 ≤ qEx.Options.length ∧ (qEx.Options.length : Int) ≤ ToInt Medium) ∧
    FromInt 7 = Except.error Err.InvalidDifficulty :=
  ⟨(C8_difficulty_ordinals.2.1 Medium (by decide) (by decide)).1,
   (C8_difficulty_ordinals.2.1 Medium (by decide) (by decide)).2 qEx.Options
     (by decide),
   (C8_difficulty_ordinals.2.2 7 (by decide)).2⟩

/-- C9: whenever `RemoveOption` succeeds, the resulting option list is the
original list with every option whose ID equals the argument removed, the
survivors keeping their original relative order (the result is both the
order-preserving filter of the original list and a sublist of it). -/
theorem C9_remove_option_stable_order (q : Question) (optionID : String)
    (now : Nat) (q' : Question)
    (h : RemoveOption q optionID now = MutResult.ok q') :
    q'.Options = q.Options.filter (fun o => decide (o.ID ≠ optionID)) ∧
    List.Sublist q'.Options q.Options := by
  have hopts : q'.Options
      = q.Options.filter (fun o => decide (o.ID ≠ optionID)) := by
    unfold RemoveOption at h
    by_cases hle : (q.Options.length : Int) ≤ VeryEasy
    · rw [if_pos hle] at h
      exact MutResult.noConfusion h
    · rw [if_neg hle] at h
      dsimp only at h
      by_cases hf : (removeScan q.Options optionID).2 = false
      · rw [if_pos hf] at h
        exact MutResult.noConfusion h
      · rw [if_neg hf] at h
        cases hv : validateOptions (removeScan q.Options optionID).1 q.Difficulty with
        | error e =>
            rw [hv] at h
            exact MutResult.noConfusion h
        | ok u =>
            rw [hv] at h
            injection h with hh
            subst hh
            simp [removeScan_eq]
  refine ⟨hopts, ?_⟩
  rw [hopts]
  exact List.filter_sublist q.Options

/-- C9 witness: the success hypothesis discharged by removing `"b"` from
the concrete three-option question `qEx`. -/
theorem C9_remove_option_stable_order_witness :
    ({ qEx with Options := [optA, optC], UpdatedAt := 5 } : Question).Options
      = qEx.Options.filter (fun o => decide (o.ID ≠ "b")) :=
  (C9_remove_option_stable_order qEx "b" 5
    { qEx with Options := [optA, optC], UpdatedAt := 5 } (by decide)).1

/-- C10: on a Question whose option count already satisfies the quantity
invariant `[2, int(difficulty)]`, `AddOption` can never fail with
`ErrQuantityOptions`: every error it returns is either the ceiling
pre-check `ErrAddOptionExceedsLimit` or the post-append
`ErrInvalidCorrectOptions`. -/
theorem C10_add_option_no_quantity_error (q : Question) (option : Option)
    (now : Nat)
    (hlo : VeryEasy ≤ (q.Options.length : Int))
    (_hhi : (q.Options.length : Int) ≤ q.Difficulty) :
    ∀ e qf, AddOption q option now = MutResult.err e qf →
      e = Err.AddOptionExceedsLimit ∨ e = Err.InvalidCorrectOptions := by
  intro e qf hq
  unfold AddOption at hq
  by_cases hc : (q.Options.length : Int) ≥ q.Difficulty
  · rw [if_pos hc] at hq
    injection hq with h1 h2
    exact Or.inl h1.symm
  · rw [if_neg hc] at hq
    dsimp only at hq
    have hlen1 : (((q.Options ++ [option]).length : Nat) : Int)
        = (q.Options.length : Int) + 1 := by
      simp [List.length_append]
    have hcond : ¬ (((q.Options ++ [option]).length : Int) < VeryEasy ∨
        ((q.Options ++ [option]).length : Int) > q.Difficulty) := by
      push_neg
      have hlo' : (2 : Int) ≤ (q.Options.length : Int) := hlo
      push_neg at hc
      constructor
      · rw [hlen1]
        show (2 : Int) ≤ _
        omega
      · rw [hlen1]
        omega
    cases hv : validateOptions (q.Options ++ [option]) q.Difficulty with
    | error e2 =>
        rw [hv] at hq
        injection hq with h1 h2
        unfold validateOptions at hv
        rw [if_neg hcond] at hv
        by_cases hcc : correctCount (q.Options ++ [option]) ≠ 1
        · rw [if_pos hcc] at hv
          injection hv with h3
          rw [← h1, ← h3]
          exact Or.inr rfl
        · rw [if_neg hcc] at hv
          exact Except.noConfusion hv
    | ok u =>
        rw [hv] at hq
        exact MutResult.noConfusion hq

/-- C10 witness: the hypotheses discharged on the concrete two-option
question `qTwo`; adding a second correct option fails with
`ErrInvalidCorrectOptions`, which the theorem locates in the allowed set. -/
theorem C10_add_option_no_quantity_error_witness :
    Err.InvalidCorrectOptions = Err.AddOptionExceedsLimit ∨
    Err.InvalidCorrectOptions = Err.InvalidCorrectOptions :=
  C10_add_option_no_quantity_error qTwo optE 3 (by decide) (by decide)
    Err.InvalidCorrectOptions qTwo (by decide)

end model
